import Mathlib

/-!
Verification of the Pincoin landing-page script against its specification.

The development shallowly embeds the two scripts of the repository:

* `initWalletScroll` (the scroll-driven panel transition sequencer of the
  draft script): pixel measurements become rationals, the GSAP timeline and
  ScrollTrigger configuration become explicit data, and the per-panel loop
  becomes a recursion over the list of measured panels.
* the `ThemeSwitcher` and `ModalPopup` modules of `src/js/main.js` (the
  variant with the click-driven theme toggle and the Formspree delivery
  call): `localStorage`, the document attributes and the popup/overlay
  class lists become explicit record state, and each handler becomes a
  state-transformation function.
-/

/-! ## Scroll sequencer (initWalletScroll, draft script) -/

/-- `let fakeScrollRatio = difference > 0 ? (difference / (difference + windowHeight)) : 0`
where `difference = panelHeight - windowHeight`. -/
def fakeScrollRatio (panelHeight windowHeight : ℚ) : ℚ :=
  let difference := panelHeight - windowHeight
  if difference > 0 then difference / (difference + windowHeight) else 0

/-- The `end` value of the ScrollTrigger configuration:
either the string `+=<px>` or the string `"bottom top"`. -/
inductive EndSpec where
  | plusPixels (px : ℚ)
  | bottomTop
deriving DecidableEq, Repr

/-- The ScrollTrigger configuration built for each processed panel. -/
structure TriggerConfig where
  start : String
  ending : EndSpec
  pinSpacing : Bool
  pin : Bool
  scrub : Bool
deriving DecidableEq, Repr

/-- The element a tween animates: the panel itself or its inner content. -/
inductive TweenTarget where
  | innerContent
  | panel
deriving DecidableEq, Repr

/-- One GSAP tween of the panel timeline; absent properties stay `none`.
`fromScale`/`fromOpacity` are the `from` values of a `fromTo` tween. -/
structure Tween where
  target : TweenTarget
  fromScale : Option ℚ := none
  fromOpacity : Option ℚ := none
  yPercent : Option ℚ := none
  y : Option ℚ := none
  scale : Option ℚ := none
  opacity : Option ℚ := none
  duration : ℚ
  ease : Option String := none
deriving DecidableEq, Repr

/-- Everything `initWalletScroll` registers for one processed panel:
the injected bottom margin (in px, `none` when the branch is not taken),
the ScrollTrigger configuration, and the timeline's tweens in order. -/
structure Schedule where
  marginBottom : Option ℚ
  trigger : TriggerConfig
  timeline : List Tween
deriving DecidableEq, Repr

/-- Outcome of the per-panel loop body: either the panel is skipped with a
`console.warn` message, or it is processed and a schedule is registered. -/
inductive PanelResult where
  | skipped (warning : String)
  | processed (sched : Schedule)
deriving DecidableEq, Repr

/-- The body of the `panels.forEach((panel, i) => ...)` loop.
`inner?` is the measured `offsetHeight` of `panel.querySelector(".wallet .container")`,
or `none` when that element is missing. -/
def buildPanel (i : ℕ) (inner? : Option ℚ) (windowHeight : ℚ) : PanelResult :=
  match inner? with
  | none => .skipped ("No .wallet__content found in panel " ++ toString i)
  | some panelHeight =>
    let r := fakeScrollRatio panelHeight windowHeight
    let margin : Option ℚ := if r ≠ 0 then some (panelHeight * r) else none
    let trigger : TriggerConfig :=
      { start := "bottom bottom",
        ending := if r ≠ 0 then .plusPixels panelHeight else .bottomTop,
        pinSpacing := false,
        pin := true,
        scrub := true }
    let fakeTweens : List Tween :=
      if r ≠ 0 then
        [{ target := .innerContent, yPercent := some (-100), y := some windowHeight,
           duration := 1 / (1 - r) - 1, ease := some "none" }]
      else []
    let timeline := fakeTweens ++
      [{ target := .panel, fromScale := some 1, fromOpacity := some 1,
         scale := some 0.7, opacity := some 0.9, duration := 0.9 },
       { target := .panel, opacity := some 0, duration := 0.1 }]
    .processed { marginBottom := margin, trigger := trigger, timeline := timeline }

/-- The `forEach` over the remaining panels, threading the index `i`. -/
def processPanels (windowHeight : ℚ) : ℕ → List (Option ℚ) → List PanelResult
  | _, [] => []
  | i, inner? :: rest =>
      buildPanel i inner? windowHeight :: processPanels windowHeight (i + 1) rest

/-- `initWalletScroll`: `panels.pop()` removes the last panel, then every
remaining panel is handed to the loop body in order. -/
def initWalletScroll (panels : List (Option ℚ)) (windowHeight : ℚ) : List PanelResult :=
  processPanels windowHeight 0 panels.dropLast

/-- The margin the loop body applied to the panel, if any. -/
def PanelResult.marginOf : PanelResult → Option ℚ
  | .skipped _ => none
  | .processed sched => sched.marginBottom

/-- The ScrollTrigger configuration the loop body registered, if any. -/
def PanelResult.triggerOf : PanelResult → Option TriggerConfig
  | .skipped _ => none
  | .processed sched => some sched.trigger

/-- The timeline the loop body registered (empty for a skipped panel). -/
def PanelResult.timelineOf : PanelResult → List Tween
  | .skipped _ => []
  | .processed sched => sched.timeline

theorem fakeScrollRatio_nonneg (c w : ℚ) (hw : 0 ≤ w) : 0 ≤ fakeScrollRatio c w := by
  unfold fakeScrollRatio
  by_cases h : c - w > 0
  · simp only [h, if_true]
    exact le_of_lt (div_pos h (by linarith))
  · simp [h]

theorem fakeScrollRatio_ne_iff_pos (c w : ℚ) (hw : 0 ≤ w) :
    fakeScrollRatio c w ≠ 0 ↔ 0 < fakeScrollRatio c w := by
  constructor
  · intro h
    exact lt_of_le_of_ne (fakeScrollRatio_nonneg c w hw) (Ne.symm h)
  · intro h
    exact ne_of_gt h

/-- C1: when content fits the viewport the ratio is `0` and no margin is
applied; when content exceeds a positive viewport the ratio is
`difference / (difference + viewportHeight)`, lies strictly between `0` and
`1`, and the applied bottom margin is `contentHeight * fakeScrollRatio`
pixels; concretely, viewport `800` and content `2000` give difference
`1200`, ratio `0.6`, and margin `1200` px. -/
theorem C1_fakeScrollRatio_margin :
    (∀ (i : ℕ) (c w : ℚ), c ≤ w →
        fakeScrollRatio c w = 0 ∧ PanelResult.marginOf (buildPanel i (some c) w) = none)
    ∧ (∀ (i : ℕ) (c w : ℚ), 0 < w → w < c →
        fakeScrollRatio c w = (c - w) / ((c - w) + w)
        ∧ 0 < fakeScrollRatio c w ∧ fakeScrollRatio c w < 1
        ∧ PanelResult.marginOf (buildPanel i (some c) w) = some (c * fakeScrollRatio c w))
    ∧ (2000 : ℚ) - 800 = 1200
    ∧ fakeScrollRatio 2000 800 = 0.6
    ∧ PanelResult.marginOf (buildPanel 0 (some 2000) 800) = some 1200 := by
  refine ⟨?_, ?_, by norm_num, ?_, ?_⟩
  · intro i c w hcw
    have hr : fakeScrollRatio c w = 0 := by
      unfold fakeScrollRatio
      have : ¬ (c - w > 0) := by linarith
      simp [this]
    refine ⟨hr, ?_⟩
    simp [buildPanel, PanelResult.marginOf, hr]
  · intro i c w hw hwc
    have hd : (0 : ℚ) < c - w := by linarith
    have hdw : (0 : ℚ) < (c - w) + w := by linarith
    have hr : fakeScrollRatio c w = (c - w) / ((c - w) + w) := by
      unfold fakeScrollRatio
      simp [hd]
    have hpos : 0 < fakeScrollRatio c w := by
      rw [hr]; exact div_pos hd hdw
    have hlt : fakeScrollRatio c w < 1 := by
      rw [hr]
      exact (div_lt_one hdw).mpr (by linarith)
    refine ⟨hr, hpos, hlt, ?_⟩
    have hne : fakeScrollRatio c w ≠ 0 := ne_of_gt hpos
    simp [buildPanel, PanelResult.marginOf, hne]
  · unfold fakeScrollRatio
    norm_num
  · have hr : fakeScrollRatio 2000 800 = 0.6 := by
      unfold fakeScrollRatio
      norm_num
    have hne : fakeScrollRatio 2000 800 ≠ 0 := by rw [hr]; norm_num
    simp [buildPanel, PanelResult.marginOf, hne, hr]
    norm_num

/-- C2: a processed panel's registered scroll range starts at
`"bottom bottom"` (panel bottom meets viewport bottom); it ends `+=` the
inner content's height when `fakeScrollRatio > 0` and at `"bottom top"`
(panel bottom meets viewport top) otherwise; the panel is pinned with
`pinSpacing` disabled. -/
theorem C2_scroll_range :
    (∀ (i : ℕ) (c w : ℚ), 0 ≤ w →
        ∃ t : TriggerConfig,
          PanelResult.triggerOf (buildPanel i (some c) w) = some t
          ∧ t.start = "bottom bottom"
          ∧ (0 < fakeScrollRatio c w → t.ending = .plusPixels c)
          ∧ (fakeScrollRatio c w = 0 → t.ending = .bottomTop)
          ∧ t.pin = true ∧ t.pinSpacing = false)
    ∧ PanelResult.triggerOf (buildPanel 0 (some 2000) 800) =
        some { start := "bottom bottom", ending := .plusPixels 2000,
               pinSpacing := false, pin := true, scrub := true }
    ∧ PanelResult.triggerOf (buildPanel 0 (some 500) 800) =
        some { start := "bottom bottom", ending := .bottomTop,
               pinSpacing := false, pin := true, scrub := true } := by
  refine ⟨?_, ?_, ?_⟩
  · intro i c w hw
    by_cases hne : fakeScrollRatio c w ≠ 0
    · refine ⟨{ start := "bottom bottom", ending := .plusPixels c, pinSpacing := false,
                pin := true, scrub := true }, ?_, rfl, fun _ => rfl, ?_, rfl, rfl⟩
      · simp [buildPanel, PanelResult.triggerOf, hne]
      · intro h0; exact absurd h0 hne
    · push_neg at hne
      refine ⟨{ start := "bottom bottom", ending := .bottomTop, pinSpacing := false,
                pin := true, scrub := true }, ?_, rfl, ?_, fun _ => rfl, rfl, rfl⟩
      · simp [buildPanel, PanelResult.triggerOf, hne]
      · intro hpos; exact absurd hne (ne_of_gt hpos)
  · have hr : fakeScrollRatio 2000 800 = 0.6 := by unfold fakeScrollRatio; norm_num
    have hne : fakeScrollRatio 2000 800 ≠ 0 := by rw [hr]; norm_num
    simp [buildPanel, PanelResult.triggerOf, hne]
  · have hr : fakeScrollRatio 500 800 = 0 := by unfold fakeScrollRatio; norm_num
    simp [buildPanel, PanelResult.triggerOf, hr]

/-- C3: the timeline built for a processed panel is: when
`fakeScrollRatio > 0`, first a linear-eased tween of duration
`1/(1 − fakeScrollRatio) − 1` moving the inner content by `yPercent −100`
plus `y = viewportHeight`; then always a tween scaling the panel from `1`
to `0.7` and opacity from `1` to `0.9` over duration `0.9`, followed by a
tween taking opacity to `0` over duration `0.1`. -/
theorem C3_timeline :
    (∀ (i : ℕ) (c w : ℚ), 0 < fakeScrollRatio c w →
        PanelResult.timelineOf (buildPanel i (some c) w) =
          [{ target := .innerContent, yPercent := some (-100), y := some w,
             duration := 1 / (1 - fakeScrollRatio c w) - 1, ease := some "none" },
           { target := .panel, fromScale := some 1, fromOpacity := some 1,
             scale := some 0.7, opacity := some 0.9, duration := 0.9 },
           { target := .panel, opacity := some 0, duration := 0.1 }])
    ∧ (∀ (i : ℕ) (c w : ℚ), fakeScrollRatio c w = 0 →
        PanelResult.timelineOf (buildPanel i (some c) w) =
          [{ target := .panel, fromScale := some 1, fromOpacity := some 1,
             scale := some 0.7, opacity := some 0.9, duration := 0.9 },
           { target := .panel, opacity := some 0, duration := 0.1 }])
    ∧ (1 / (1 - fakeScrollRatio 2000 800) - 1 : ℚ) = 1.5 := by
  refine ⟨?_, ?_, ?_⟩
  · intro i c w hpos
    have hne : fakeScrollRatio c w ≠ 0 := ne_of_gt hpos
    simp [buildPanel, PanelResult.timelineOf, hne]
  · intro i c w h0
    simp [buildPanel, PanelResult.timelineOf, h0]
  · have hr : fakeScrollRatio 2000 800 = 0.6 := by unfold fakeScrollRatio; norm_num
    rw [hr]; norm_num

theorem processPanels_append (w : ℚ) (l₁ l₂ : List (Option ℚ)) (n : ℕ) :
    processPanels w n (l₁ ++ l₂) =
      processPanels w n l₁ ++ processPanels w (n + l₁.length) l₂ := by
  induction l₁ generalizing n with
  | nil => simp [processPanels]
  | cons a t ih =>
    have h1 : processPanels w n ((a :: t) ++ l₂) =
        buildPanel n a w :: processPanels w (n + 1) (t ++ l₂) := rfl
    have h2 : processPanels w n (a :: t) =
        buildPanel n a w :: processPanels w (n + 1) t := rfl
    rw [h1, ih, h2, List.cons_append, List.length_cons]
    rw [show n + 1 + t.length = n + (t.length + 1) from by omega]

/-- C4: the last panel of the sequence is popped before the loop, so the
result is determined by the other panels alone; a panel whose inner-content
element is missing yields a `skipped` result carrying the warning message
(the loop body is a total function, so no exception); and the results for
the remaining panels are exactly what the loop body produces for them,
unaffected by the skipped panel. -/
theorem C4_last_panel_and_skip :
    (∀ (ps : List (Option ℚ)) (p : Option ℚ) (w : ℚ),
        initWalletScroll (ps ++ [p]) w = processPanels w 0 ps)
    ∧ (∀ (i : ℕ) (w : ℚ),
        buildPanel i none w =
          .skipped ("No .wallet__content found in panel " ++ toString i))
    ∧ (∀ (ps₁ ps₂ : List (Option ℚ)) (p : Option ℚ) (w : ℚ),
        initWalletScroll (ps₁ ++ none :: ps₂ ++ [p]) w =
          processPanels w 0 ps₁
            ++ PanelResult.skipped
                ("No .wallet__content found in panel " ++ toString ps₁.length)
              :: processPanels w (ps₁.length + 1) ps₂) := by
  refine ⟨?_, fun i w => rfl, ?_⟩
  · intro ps p w
    simp [initWalletScroll, List.dropLast_concat]
  · intro ps₁ ps₂ p w
    have hassoc : ps₁ ++ none :: ps₂ ++ [p] = (ps₁ ++ none :: ps₂) ++ [p] := by
      simp
    rw [hassoc]
    simp only [initWalletScroll, List.dropLast_concat]
    rw [processPanels_append]
    simp [processPanels, buildPanel]

/-! ## Modal popup module (src/js/main.js) -/

/-- The two overlay dialogs of the page: `#waitlist-popup` and `#done-popup`. -/
inductive Popup where
  | waitlist
  | done
deriving DecidableEq, Repr

/-- The page-level state the modal controller mutates: the `active` class of
each popup and of the shared overlay, and `document.body.style.overflow`
(`true` stands for `"hidden"`, `false` for `""`). -/
structure PageState where
  waitlistActive : Bool
  doneActive : Bool
  overlayActive : Bool
  scrollLocked : Bool
deriving DecidableEq, Repr

/-- `toggleBodyScroll(disable)`. -/
def toggleBodyScroll (disable : Bool) (s : PageState) : PageState :=
  { s with scrollLocked := disable }

/-- `popup.classList.add('active')` / `remove('active')` for one dialog. -/
def PageState.withActive : Popup → Bool → PageState → PageState
  | .waitlist, b, s => { s with waitlistActive := b }
  | .done, b, s => { s with doneActive := b }

/-- Whether one dialog currently carries the `active` class. -/
def PageState.activeOf : Popup → PageState → Bool
  | .waitlist, s => s.waitlistActive
  | .done, s => s.doneActive

/-- `openPopup(popup)`: null guard, then overlay active, popup active,
scroll disabled. -/
def openPopup (popup : Option Popup) (s : PageState) : PageState :=
  match popup with
  | none => s
  | some p =>
      toggleBodyScroll true (PageState.withActive p true { s with overlayActive := true })

/-- `closePopup(popup)`: null guard, then popup inactive, overlay inactive,
scroll enabled. -/
def closePopup (popup : Option Popup) (s : PageState) : PageState :=
  match popup with
  | none => s
  | some p =>
      toggleBodyScroll false { (PageState.withActive p false s) with overlayActive := false }

/-- `closeAllPopups()`: both popups and the overlay inactive, scroll enabled. -/
def closeAllPopups (s : PageState) : PageState :=
  toggleBodyScroll false
    { s with waitlistActive := false, doneActive := false, overlayActive := false }

/-- `handleCloseButtonClick(e)`: closes the popup the clicked button sits in
(`e.currentTarget.closest('.popup')`, possibly null). -/
def handleCloseButtonClick (closest : Option Popup) (s : PageState) : PageState :=
  closePopup closest s

/-- `handleOverlayClick()`. -/
def handleOverlayClick (s : PageState) : PageState :=
  closeAllPopups s

/-- `handleEscapeKey(e)`: closes everything only when `e.key === 'Escape'`. -/
def handleEscapeKey (key : String) (s : PageState) : PageState :=
  if key == "Escape" then closeAllPopups s else s

/-- `validateEmail(email)`: truthy email (non-empty), contains `@`,
length strictly greater than `3`. -/
def validateEmail (email : String) : Bool :=
  !(email == "") && email.toList.contains '@' && decide (email.length > 3)

/-- `String.prototype.trim()` of the email input's value: strip leading and
trailing whitespace (written over the character list so that it evaluates
on concrete inputs). -/
def jsTrim (s : String) : String :=
  ⟨((s.data.dropWhile Char.isWhitespace).reverse.dropWhile Char.isWhitespace).reverse⟩

/-- Everything `handleFormSubmit` produces: the final page state, the email
input's value, the `alert` messages raised, the emails handed to the
delivery call, the scheduled `setTimeout` actions as (delay ms, popup to
open), and the `console.error` lines of the delivery attempt. -/
structure SubmitResult where
  state : PageState
  inputValue : String
  alerts : List String
  sentEmails : List String
  scheduled : List (ℕ × Popup)
  consoleErrors : List String
deriving DecidableEq, Repr

/-- `handleFormSubmit(e)` over the embedded state: trims the input, aborts
with an alert when validation fails, otherwise fires the delivery call with
the email, closes the waitlist popup, schedules `openPopup(donePopup)`
after 300 ms and clears the input. `deliveryOk` is the outcome of the
external delivery call; it reaches only the `console.error` log. -/
def handleFormSubmit (deliveryOk : Bool) (s : PageState) (inputValue : String) :
    SubmitResult :=
  let email := jsTrim inputValue
  if validateEmail email = false then
    { state := s, inputValue := inputValue,
      alerts := ["Please enter a valid email address"],
      sentEmails := [], scheduled := [], consoleErrors := [] }
  else
    { state := closePopup (some .waitlist) s,
      inputValue := "",
      alerts := [],
      sentEmails := [email],
      scheduled := [(300, Popup.done)],
      consoleErrors := if deliveryOk then [] else ["Email sending failed:"] }

/-- Running one scheduled `setTimeout` callback: `openPopup` on its popup. -/
def runScheduled (item : ℕ × Popup) (s : PageState) : PageState :=
  openPopup (some item.2) s

/-- C5: `validateEmail` accepts exactly the non-empty strings that contain
`'@'` and have length strictly greater than `3`; `"a@b"` is rejected,
`"ab@cde"` accepted, `"noatsign"` rejected. -/
theorem C5_validateEmail :
    (∀ email : String,
        validateEmail email = true ↔ (email ≠ "" ∧ '@' ∈ email.toList ∧ 3 < email.length))
    ∧ validateEmail "a@b" = false
    ∧ validateEmail "ab@cde" = true
    ∧ validateEmail "noatsign" = false := by
  refine ⟨?_, by decide, by decide, by decide⟩
  intro email
  simp [validateEmail, and_assoc]

/-- C6: on an invalid trimmed email the handler raises exactly the blocking
alert and changes nothing (state, input, no delivery, no scheduled
transition); on a valid one it fires exactly one delivery call carrying the
trimmed email, closes the waitlist popup, schedules `openPopup(donePopup)`
with a 300 ms delay (running it opens the confirmation popup), raises no
alert and clears the input; and the delivery outcome reaches only the
console log, never the state, alerts, input, delivery list or schedule. -/
theorem C6_handleFormSubmit :
    (∀ (deliveryOk : Bool) (s : PageState) (v : String),
        validateEmail (jsTrim v) = false →
          handleFormSubmit deliveryOk s v =
            { state := s, inputValue := v,
              alerts := ["Please enter a valid email address"],
              sentEmails := [], scheduled := [], consoleErrors := [] })
    ∧ (∀ (deliveryOk : Bool) (s : PageState) (v : String),
        validateEmail (jsTrim v) = true →
          (handleFormSubmit deliveryOk s v).sentEmails = [jsTrim v]
          ∧ (handleFormSubmit deliveryOk s v).state = closePopup (some .waitlist) s
          ∧ (handleFormSubmit deliveryOk s v).state.waitlistActive = false
          ∧ (handleFormSubmit deliveryOk s v).scheduled = [(300, Popup.done)]
          ∧ (runScheduled (300, Popup.done)
              (handleFormSubmit deliveryOk s v).state).doneActive = true
          ∧ (handleFormSubmit deliveryOk s v).alerts = []
          ∧ (handleFormSubmit deliveryOk s v).inputValue = "")
    ∧ (∀ (s : PageState) (v : String),
        (handleFormSubmit true s v).state = (handleFormSubmit false s v).state
        ∧ (handleFormSubmit true s v).inputValue = (handleFormSubmit false s v).inputValue
        ∧ (handleFormSubmit true s v).alerts = (handleFormSubmit false s v).alerts
        ∧ (handleFormSubmit true s v).sentEmails = (handleFormSubmit false s v).sentEmails
        ∧ (handleFormSubmit true s v).scheduled = (handleFormSubmit false s v).scheduled)
    ∧ handleFormSubmit true ⟨true, false, true, true⟩ "a@b" =
        { state := ⟨true, false, true, true⟩, inputValue := "a@b",
          alerts := ["Please enter a valid email address"],
          sentEmails := [], scheduled := [], consoleErrors := [] }
    ∧ handleFormSubmit true ⟨true, false, true, true⟩ "ab@cde" =
        { state := ⟨false, false, false, false⟩, inputValue := "",
          alerts := [], sentEmails := ["ab@cde"],
          scheduled := [(300, Popup.done)], consoleErrors := [] } := by
  refine ⟨?_, ?_, ?_, by decide, by decide⟩
  · intro deliveryOk s v h
    simp [handleFormSubmit, h]
  · intro deliveryOk s v h
    simp [handleFormSubmit, h, closePopup, toggleBodyScroll, PageState.withActive,
      runScheduled, openPopup]
  · intro s v
    by_cases h : validateEmail (jsTrim v) = false <;>
      simp [handleFormSubmit, h]

/-- C7: opening any dialog sets the scroll-lock and activates the overlay;
every close path — the close button, the overlay click, and the Escape
key — releases the scroll-lock and deactivates the overlay. -/
theorem C7_scroll_lock_paths :
    ∀ (p : Popup) (s : PageState),
      (openPopup (some p) s).scrollLocked = true
      ∧ (openPopup (some p) s).overlayActive = true
      ∧ (handleCloseButtonClick (some p) s).scrollLocked = false
      ∧ (handleCloseButtonClick (some p) s).overlayActive = false
      ∧ (handleOverlayClick s).scrollLocked = false
      ∧ (handleOverlayClick s).overlayActive = false
      ∧ (handleEscapeKey "Escape" s).scrollLocked = false
      ∧ (handleEscapeKey "Escape" s).overlayActive = false := by
  intro p s
  cases p <;>
    simp [openPopup, handleCloseButtonClick, closePopup, handleOverlayClick,
      closeAllPopups, handleEscapeKey, toggleBodyScroll, PageState.withActive]

/-- C9: `closePopup` on a null dialog changes nothing; on a dialog `p` it
always deactivates the overlay, releases the scroll-lock and deactivates
`p`, while the open/closed state of every other dialog is untouched — so
with both dialogs open, closing the waitlist leaves the done dialog open
with no overlay and scrolling re-enabled. -/
theorem C9_closePopup_frame :
    (∀ s : PageState, closePopup none s = s)
    ∧ (∀ (p : Popup) (s : PageState),
        (closePopup (some p) s).overlayActive = false
        ∧ (closePopup (some p) s).scrollLocked = false
        ∧ PageState.activeOf p (closePopup (some p) s) = false)
    ∧ (∀ (p q : Popup) (s : PageState), q ≠ p →
        PageState.activeOf q (closePopup (some p) s) = PageState.activeOf q s)
    ∧ closePopup (some .waitlist) ⟨true, true, true, true⟩ =
        ⟨false, true, false, false⟩ := by
  refine ⟨fun s => rfl, ?_, ?_, by decide⟩
  · intro p s
    cases p <;>
      simp [closePopup, toggleBodyScroll, PageState.withActive, PageState.activeOf]
  · intro p q s hqp
    cases p <;> cases q <;>
      simp_all [closePopup, toggleBodyScroll, PageState.withActive, PageState.activeOf]

/-! ## Theme switcher module (src/js/main.js) -/

/-- Which optional DOM elements the theme module found at load time:
`#theme-toggle` and `#status-bar-theme`. -/
structure ThemeDom where
  themeToggleExists : Bool
  statusBarExists : Bool
deriving DecidableEq, Repr

/-- The state the theme module reads and writes: the `localStorage`
`'theme'` entry, the document's `data-theme` attribute, the toggle's
`aria-pressed` attribute, and the status-bar meta `content`. -/
structure ThemeEnv where
  storage : Option String
  dataTheme : Option String
  ariaPressed : Option String
  statusBarContent : Option String
deriving DecidableEq, Repr

namespace ThemeSwitcher

/-- `getSavedTheme()`: `localStorage.getItem('theme') || 'dark'`
(an absent or falsy empty entry yields `'dark'`). -/
def getSavedTheme (env : ThemeEnv) : String :=
  match env.storage with
  | none => "dark"
  | some s => if s == "" then "dark" else s

/-- `setTheme(theme)`: writes the document attribute and the storage entry,
and updates `aria-pressed` and the status-bar meta when those elements
exist. -/
def setTheme (dom : ThemeDom) (theme : String) (env : ThemeEnv) : ThemeEnv :=
  { dataTheme := some theme,
    storage := some theme,
    ariaPressed :=
      if dom.themeToggleExists then
        some (if theme == "dark" then "true" else "false")
      else env.ariaPressed,
    statusBarContent :=
      if dom.statusBarExists then
        some (if theme == "dark" then "#121212" else "#F7F7F7")
      else env.statusBarContent }

/-- `init()`: apply the saved theme. -/
def init (dom : ThemeDom) (env : ThemeEnv) : ThemeEnv :=
  setTheme dom (getSavedTheme env) env

/-- `handleToggle(e)`: flip the saved theme and apply the result. -/
def handleToggle (dom : ThemeDom) (env : ThemeEnv) : ThemeEnv :=
  setTheme dom (if getSavedTheme env == "dark" then "light" else "dark") env

end ThemeSwitcher

/-- The document attribute, the persisted entry and the toggle's indicated
state all name the same theme `t`. -/
def themeAgrees (env : ThemeEnv) (t : String) : Prop :=
  env.dataTheme = some t ∧ env.storage = some t ∧
  env.ariaPressed = some (if t == "dark" then "true" else "false")

theorem getSavedTheme_setTheme (dom : ThemeDom) (env : ThemeEnv) (t : String)
    (h : t ≠ "") :
    ThemeSwitcher.getSavedTheme (ThemeSwitcher.setTheme dom t env) = t := by
  simp [ThemeSwitcher.setTheme, ThemeSwitcher.getSavedTheme, h]

/-- C8: the theme state machine defaults to `dark` when no preference is
stored; `init` applies the persisted preference to the document; setting a
theme in {dark, light} and immediately reading the persisted preference
returns it; and toggling twice from any state whose persisted preference is
in {dark, light} restores both the persisted preference and the applied
document state. -/
theorem C8_theme_state_machine :
    (∀ (d a sb : Option String), ThemeSwitcher.getSavedTheme ⟨none, d, a, sb⟩ = "dark")
    ∧ (∀ (dom : ThemeDom) (env : ThemeEnv),
        (ThemeSwitcher.init dom env).dataTheme = some (ThemeSwitcher.getSavedTheme env))
    ∧ (∀ (dom : ThemeDom) (env : ThemeEnv) (t : String), t = "dark" ∨ t = "light" →
        ThemeSwitcher.getSavedTheme (ThemeSwitcher.setTheme dom t env) = t)
    ∧ (∀ (dom : ThemeDom) (env : ThemeEnv),
        ThemeSwitcher.getSavedTheme env = "dark" ∨ ThemeSwitcher.getSavedTheme env = "light" →
          ThemeSwitcher.getSavedTheme
              (ThemeSwitcher.handleToggle dom (ThemeSwitcher.handleToggle dom env)) =
            ThemeSwitcher.getSavedTheme env
          ∧ (ThemeSwitcher.handleToggle dom (ThemeSwitcher.handleToggle dom env)).dataTheme =
              some (ThemeSwitcher.getSavedTheme env))
    ∧ ThemeSwitcher.getSavedTheme
        (ThemeSwitcher.setTheme ⟨true, true⟩ "dark" ⟨some "light", none, none, none⟩) = "dark"
    ∧ ThemeSwitcher.handleToggle ⟨true, true⟩
        (ThemeSwitcher.handleToggle ⟨true, true⟩
          ⟨some "light", some "light", some "false", some "#F7F7F7"⟩) =
        ⟨some "light", some "light", some "false", some "#F7F7F7"⟩ := by
  refine ⟨fun d a sb => rfl, ?_, ?_, ?_, by decide, by decide⟩
  · intro dom env
    simp [ThemeSwitcher.init, ThemeSwitcher.setTheme]
  · intro dom env t ht
    rcases ht with h | h <;> subst h <;>
      simp [ThemeSwitcher.setTheme, ThemeSwitcher.getSavedTheme]
  · intro dom env ht
    rcases ht with h | h
    · have h1 : ThemeSwitcher.handleToggle dom env =
          ThemeSwitcher.setTheme dom "light" env := by
        simp [ThemeSwitcher.handleToggle, h]
      have h2 : ThemeSwitcher.getSavedTheme (ThemeSwitcher.setTheme dom "light" env) =
          "light" := getSavedTheme_setTheme dom env "light" (by decide)
      have h3 : ThemeSwitcher.handleToggle dom (ThemeSwitcher.handleToggle dom env) =
          ThemeSwitcher.setTheme dom "dark" (ThemeSwitcher.setTheme dom "light" env) := by
        rw [h1]
        simp [ThemeSwitcher.handleToggle, h2]
      rw [h3, h]
      exact ⟨getSavedTheme_setTheme _ _ _ (by decide), rfl⟩
    · have h1 : ThemeSwitcher.handleToggle dom env =
          ThemeSwitcher.setTheme dom "dark" env := by
        simp [ThemeSwitcher.handleToggle, h]
      have h2 : ThemeSwitcher.getSavedTheme (ThemeSwitcher.setTheme dom "dark" env) =
          "dark" := getSavedTheme_setTheme dom env "dark" (by decide)
      have h3 : ThemeSwitcher.handleToggle dom (ThemeSwitcher.handleToggle dom env) =
          ThemeSwitcher.setTheme dom "light" (ThemeSwitcher.setTheme dom "dark" env) := by
        rw [h1]
        simp [ThemeSwitcher.handleToggle, h2]
      rw [h3, h]
      exact ⟨getSavedTheme_setTheme _ _ _ (by decide), rfl⟩

/-- C10: after `init` and after any toggle (and after any `setTheme`, the
only mutator), the document's `data-theme` attribute, the persisted
preference and the toggle control's indicated `aria-pressed` state all
agree on the same theme, provided the toggle control exists. -/
theorem C10_theme_consistency :
    (∀ (dom : ThemeDom) (env : ThemeEnv) (t : String), dom.themeToggleExists = true →
        themeAgrees (ThemeSwitcher.setTheme dom t env) t)
    ∧ (∀ (dom : ThemeDom) (env : ThemeEnv), dom.themeToggleExists = true →
        themeAgrees (ThemeSwitcher.init dom env) (ThemeSwitcher.getSavedTheme env))
    ∧ (∀ (dom : ThemeDom) (env : ThemeEnv), dom.themeToggleExists = true →
        themeAgrees (ThemeSwitcher.handleToggle dom env)
          (if ThemeSwitcher.getSavedTheme env == "dark" then "light" else "dark"))
    ∧ themeAgrees (ThemeSwitcher.init ⟨true, true⟩ ⟨none, none, none, none⟩) "dark"
    ∧ themeAgrees
        (ThemeSwitcher.handleToggle ⟨true, true⟩
          ⟨some "dark", some "dark", some "true", some "#121212"⟩) "light" := by
  have hset : ∀ (dom : ThemeDom) (env : ThemeEnv) (t : String),
      dom.themeToggleExists = true → themeAgrees (ThemeSwitcher.setTheme dom t env) t := by
    intro dom env t h
    refine ⟨rfl, rfl, ?_⟩
    simp [ThemeSwitcher.setTheme, h]
  refine ⟨hset, ?_, ?_, ?_, ?_⟩
  · intro dom env h
    exact hset dom env _ h
  · intro dom env h
    exact hset dom env _ h
  · exact ⟨rfl, rfl, rfl⟩
  · exact ⟨rfl, rfl, rfl⟩
